import Mathlib

/-!
# Verification of the Recon port-scanning engine

Shallow embedding of `backend/app/modules/port_scan/engine.py` and
`backend/app/modules/port_scan/metrics.py`.  Network interactions are
nondeterministic, so each probe is parametrised by an explicit outcome value
(the environment); the Lean functions reproduce, branch for branch, what the
Python code does with that outcome.  Wall-clock durations are modelled as
rationals, Python floats in the metrics module as reals where square roots
appear and rationals elsewhere, Python strings as `String` or `List Char`.
-/

namespace Recon

/-- Python-style substring test (`needle in hay` for `str`): `true` iff
`needle` occurs as a contiguous sublist of `hay`. -/
def containsSub (needle : List Char) : List Char → Bool
  | [] => needle.isEmpty
  | c :: t => needle.isPrefixOf (c :: t) || containsSub needle t

/-- Python `str.strip()` whitespace set (ASCII part). -/
def isPySpace (c : Char) : Bool :=
  c = ' ' || c = '\t' || c = '\n' || c = '\r' || c = '\x0b' || c = '\x0c'

/-- Python `str.strip()`: drop leading and trailing whitespace. -/
def pyStrip (s : List Char) : List Char :=
  ((s.dropWhile isPySpace).reverse.dropWhile isPySpace).reverse

/-- `COMMON_PORTS` from `engine.py`. -/
def COMMON_PORTS : List ℕ :=
  [21, 22, 23, 25, 53, 80, 110, 143, 443, 445, 3306, 3389, 5432, 5900,
   8080, 8443, 27017, 6379]

/-- `SERVICE_PORTS` from `engine.py` (the source dict literal repeats key
27017 with the same value; a single entry is equivalent). -/
def SERVICE_PORTS : List (ℕ × String) :=
  [(21, "FTP"), (22, "SSH"), (23, "Telnet"), (25, "SMTP"), (53, "DNS"),
   (80, "HTTP"), (110, "POP3"), (143, "IMAP"), (443, "HTTPS"), (445, "SMB"),
   (465, "SMTPS"), (587, "SMTP"), (993, "IMAPS"), (995, "POP3S"),
   (1433, "MSSQL"), (3306, "MySQL"), (3389, "RDP"), (5432, "PostgreSQL"),
   (5900, "VNC"), (8080, "HTTP-Alt"), (8443, "HTTPS-Alt"), (27017, "MongoDB"),
   (6379, "Redis"), (9200, "Elasticsearch")]

/-- `SERVICE_PORTS.get(port, "Unknown")`. -/
def servicePortLookup (port : ℕ) : String :=
  (SERVICE_PORTS.lookup port).getD "Unknown"

/-- `PortScanResult` dataclass from `engine.py`. -/
structure PortScanResult where
  host : String
  port : ℕ
  status : String
  service : String := ""
  version : List Char := []
  response_time : ℚ := 0
  banner : List Char := []
deriving Repr, DecidableEq

/-- Per-technique entry of `technique_breakdown` in `ScanMetrics`. -/
structure TechStats where
  count : ℕ
  time : ℚ
  avg_time : ℚ
deriving Repr, DecidableEq

/-- `ScanMetrics` dataclass from `engine.py`. -/
structure ScanMetrics where
  total_ports_scanned : ℕ
  open_ports_found : ℕ
  closed_ports : ℕ
  filtered_ports : ℕ
  total_time : ℚ
  ports_per_second : ℚ
  average_response_time : ℚ
  technique_breakdown : List (String × TechStats)
  concurrent_connections : ℕ
  host : String
deriving Repr, DecidableEq

/-- Outcome of the network interaction attempted by `tcp_connect_scan`:
either the handshake completed within the timeout (with the elapsed time and,
when the follow-up zero-length write / read banner grab succeeded, the decoded
data), or `asyncio.TimeoutError`, or `ConnectionRefusedError`, or any other
exception. -/
inductive TcpOutcome where
  | success (rt : ℚ) (grab : Option (List Char))
  | timeout (rt : ℚ)
  | refused (rt : ℚ)
  | otherError (rt : ℚ)
deriving Repr, DecidableEq

/-- Outcome of the socket interaction in `syn_scan_sync`: `connect_ex`
returned a code (0 on success) after `rt` seconds, or some exception was
raised while creating / using the socket. -/
inductive SynOutcome where
  | completed (code : ℤ) (rt : ℚ)
  | error
deriving Repr, DecidableEq

/-- Outcome of the UDP interaction in `udp_scan`: a datagram came back within
the timeout, `recvfrom` timed out, or some other exception was raised. -/
inductive UdpOutcome where
  | reply (rt : ℚ)
  | noReply (rt : ℚ)
  | error
deriving Repr, DecidableEq

/-- Outcome of the fresh connection opened by `service_detection`: the
connect (or any step outside the inner shields) raised, or it succeeded and
the two reads accumulated `raw` as the decoded banner bytes (possibly empty
when nothing answered the probe). -/
inductive SDOutcome where
  | connectFail
  | connected (raw : List Char)
deriving Repr, DecidableEq

/-- `PortScanner.tcp_connect_scan` (`engine.py:131-186`).  Every exception
path is caught inside the function and produces a `PortScanResult`, so the
embedding is total (no `Option`).  On success the banner is
`data.decode(..).strip()[:100]` when the grab worked, `""` otherwise. -/
def tcp_connect_scan (host : String) (port : ℕ) (o : TcpOutcome) :
    PortScanResult :=
  match o with
  | .success rt grab =>
      let banner := match grab with
        | some d => (pyStrip d).take 100
        | none => []
      { host := host, port := port, status := "open",
        service := servicePortLookup port, response_time := rt,
        banner := banner }
  | .timeout rt =>
      { host := host, port := port, status := "filtered", response_time := rt }
  | .refused rt =>
      { host := host, port := port, status := "closed", response_time := rt }
  | .otherError rt =>
      { host := host, port := port, status := "filtered", response_time := rt }

/-- `PortScanner.syn_scan_sync` (`engine.py:188-229`).  `connect_ex == 0`
yields `open`; any nonzero code yields `filtered`; an exception yields `None`
(despite the docstring, no fallback to TCP connect happens in the code). -/
def syn_scan_sync (host : String) (port : ℕ) (o : SynOutcome) :
    Option PortScanResult :=
  match o with
  | .completed code rt =>
      if code = 0 then
        some { host := host, port := port, status := "open",
               service := servicePortLookup port, response_time := rt }
      else
        some { host := host, port := port, status := "filtered",
               response_time := rt }
  | .error => none

/-- `PortScanner.udp_scan` (`engine.py:231-267`).  A reply yields `open`, a
`socket.timeout` yields `open|filtered`, any other exception yields `None`. -/
def udp_scan (host : String) (port : ℕ) (o : UdpOutcome) :
    Option PortScanResult :=
  match o with
  | .reply rt =>
      some { host := host, port := port, status := "open",
             service := servicePortLookup port, response_time := rt }
  | .noReply rt =>
      some { host := host, port := port, status := "open|filtered",
             response_time := rt }
  | .error => none

/-- `PortScanner._extract_version` (`engine.py:406-419`).  `split(c)[0]` of a
string containing `c` is the text before the first `c`. -/
def extract_version (banner : List Char) : List Char :=
  if banner = [] then []
  else if containsSub "SSH".toList banner then
    (if banner.contains '\r' then banner.takeWhile (fun c => c ≠ '\r')
     else banner)
  else if containsSub "HTTP".toList banner then
    (if banner.contains '\n' then banner.takeWhile (fun c => c ≠ '\n')
     else banner)
  else if containsSub "FTP".toList banner then
    (if banner.contains '\r' then banner.takeWhile (fun c => c ≠ '\r')
     else banner)
  else banner.take 50

/-- `PortScanner.service_detection` (`engine.py:269-404`).  A non-`open`
result is returned at once.  Otherwise a fresh connection is opened: if that
(or anything outside the inner `try` shields) raises, the original result is
returned untouched; if it succeeds, the banner bytes read before and after
the port-specific probe are concatenated into `raw`, and only when `raw` is
non-empty are `banner` (stripped, truncated to 200) and `version` updated. -/
def service_detection (result : PortScanResult) (o : SDOutcome) :
    PortScanResult :=
  if result.status ≠ "open" then result
  else
    match o with
    | .connectFail => result
    | .connected raw =>
        if raw ≠ [] then
          let b := (pyStrip raw).take 200
          { result with banner := b, version := extract_version b }
        else result

/-- The environment of one orchestrated scan: the outcome each per-port
network interaction would have, the wall-clock duration `_scan_with_metric`
observes for each port's task, and the scan's total elapsed time. -/
structure NetEnv where
  tcp : ℕ → TcpOutcome
  syn : ℕ → SynOutcome
  udp : ℕ → UdpOutcome
  sd : ℕ → SDOutcome
  elapsed : ℕ → ℚ
  total_time : ℚ

/-- The port worklist built by `scan_port_range` (`engine.py:445-452`):
ascending range, and with prioritisation the in-range common ports first
followed by the rest in ascending order. -/
def ports_to_scan (start_port end_port : ℕ) (use_common_ports : Bool) :
    List ℕ :=
  let base := List.range' start_port (end_port + 1 - start_port)
  if use_common_ports then
    let common := COMMON_PORTS.filter
      (fun p => decide (start_port ≤ p) && decide (p ≤ end_port))
    let uncommon := base.filter (fun p => !(common.contains p))
    common ++ uncommon
  else base

/-- The per-port probe tasks `scan_port_range` creates (`engine.py:454-480`):
one task per worklist port for the technique's branch; an unrecognised
technique creates no tasks.  `tcp_connect_scan` never returns `None`, so its
tasks are wrapped in `some` directly; `syn`/`udp` tasks may produce `None`. -/
def scanTasks (env : NetEnv) (host : String)
    (start_port end_port : ℕ) (use_common_ports : Bool) (technique : String) :
    List (Option PortScanResult) :=
  let ports := ports_to_scan start_port end_port use_common_ports
  if technique = "tcp_connect" ∨ technique = "hybrid" then
    ports.map (fun p => some (tcp_connect_scan host p (env.tcp p)))
  else if technique = "syn" then
    ports.map (fun p => syn_scan_sync host p (env.syn p))
  else if technique = "udp" then
    ports.map (fun p => udp_scan host p (env.udp p))
  else []

/-- "filtered" in r.status (`engine.py:500`). -/
def statusFiltered (s : String) : Bool :=
  containsSub "filtered".toList s.toList

/-- Per-technique accounting accumulated by `_scan_with_metric`
(`engine.py:550-557`): for the one active technique label the count is the
number of tasks and the time is the sum of observed task durations. -/
def techniqueTimes (env : NetEnv) (ports : List ℕ) (activeLabel : String)
    (label : String) : ℕ × ℚ :=
  if label = activeLabel then (ports.length, (ports.map env.elapsed).sum)
  else (0, 0)

/-- One `technique_breakdown` entry (`engine.py:515-543`): count, total time,
and average time guarded against a zero count. -/
def breakdownEntry (ct : ℕ × ℚ) : TechStats :=
  { count := ct.1, time := ct.2,
    avg_time := if ct.1 > 0 then ct.2 / (ct.1 : ℚ) else 0 }

/-- Post-processing applied to each gathered task result that survived the
`isinstance` filter (`engine.py:486-492`): `open` results pass through
`service_detection`, everything else is kept as is. -/
def postDetect (env : NetEnv) (r : PortScanResult) : PortScanResult :=
  if r.status = "open" then service_detection r (env.sd r.port) else r

/-- The `valid_results` list of `scan_port_range` (`engine.py:486-494`):
non-`PortScanResult` entries (the `None`s) are dropped, and `open` results
pass through service detection. -/
def validResults (env : NetEnv) (host : String)
    (start_port end_port : ℕ) (use_common_ports : Bool) (technique : String) :
    List PortScanResult :=
  (scanTasks env host start_port end_port use_common_ports
    technique).filterMap (fun r? => r?.map (postDetect env))

/-- `PortScanner.scan_port_range` (`engine.py:421-548`).  `max_workers` is the
scanner's configured concurrency limit (`__init__`); inside this function it
is only copied into the `concurrent_connections` metrics field.  All tasks
are started by one `asyncio.gather`; the metrics are computed over the
surviving `valid_results`. -/
def scan_port_range (env : NetEnv) (host : String)
    (start_port end_port : ℕ) (use_common_ports : Bool) (technique : String)
    (max_workers : ℕ) : List PortScanResult × ScanMetrics :=
  let ports := ports_to_scan start_port end_port use_common_ports
  let valid_results := validResults env host start_port end_port
    use_common_ports technique
  let total_time := env.total_time
  let open_ports := valid_results.filter (fun r => r.status = "open")
  let closed_ports := valid_results.filter (fun r => r.status = "closed")
  let filtered_ports := valid_results.filter (fun r => statusFiltered r.status)
  let avg_response_time :=
    if valid_results ≠ [] then
      (valid_results.map (fun r => r.response_time)).sum /
        (valid_results.length : ℚ)
    else 0
  let activeLabel :=
    if technique = "tcp_connect" ∨ technique = "hybrid" then "tcp_connect"
    else if technique = "syn" then "syn"
    else if technique = "udp" then "udp"
    else ""
  let metrics : ScanMetrics :=
    { total_ports_scanned := valid_results.length,
      open_ports_found := open_ports.length,
      closed_ports := closed_ports.length,
      filtered_ports := filtered_ports.length,
      total_time := total_time,
      ports_per_second :=
        if total_time > 0 then (valid_results.length : ℚ) / total_time else 0,
      average_response_time := avg_response_time,
      technique_breakdown :=
        [("tcp_connect",
          breakdownEntry (techniqueTimes env ports activeLabel "tcp_connect")),
         ("syn", breakdownEntry (techniqueTimes env ports activeLabel "syn")),
         ("udp", breakdownEntry (techniqueTimes env ports activeLabel "udp"))],
      concurrent_connections := max_workers,
      host := host }
  (valid_results, metrics)

/-- The `valid_results` list of `scan_common_ports` before the detection
loop runs (`engine.py:565-574`); `tcp_connect_scan` never returns `None`, so
the `r is not None` filter keeps everything. -/
def commonValid (env : NetEnv) (host : String) : List PortScanResult :=
  COMMON_PORTS.map (fun p => tcp_connect_scan host p (env.tcp p))

/-- The same list after the detection loop (`engine.py:577-578`):
`service_detection` mutates the `open` result objects in place. -/
def commonDetected (env : NetEnv) (host : String) : List PortScanResult :=
  (commonValid env host).map (postDetect env)

/-- `PortScanner.scan_common_ports` (`engine.py:559-598`).  Fixed worklist
`COMMON_PORTS`, TCP connect only.  `service_detection` mutates the shared
result objects in place, so the returned list reflects the detection updates
on just the `open` entries, while every status (and response time) is
unchanged by detection; `open_ports_found` is computed before the detection
loop, the other counts after it. -/
def scan_common_ports (env : NetEnv) (host : String) (max_workers : ℕ) :
    List PortScanResult × ScanMetrics :=
  let valid_results := commonValid env host
  let open_count :=
    (valid_results.filter (fun r => r.status = "open")).length
  let detected := commonDetected env host
  let total_time := env.total_time
  let avg_response_time :=
    if detected ≠ [] then
      (detected.map (fun r => r.response_time)).sum / (detected.length : ℚ)
    else 0
  let metrics : ScanMetrics :=
    { total_ports_scanned := detected.length,
      open_ports_found := open_count,
      closed_ports :=
        (detected.filter (fun r => r.status = "closed")).length,
      filtered_ports :=
        (detected.filter (fun r => statusFiltered r.status)).length,
      total_time := total_time,
      ports_per_second :=
        if total_time > 0 then (detected.length : ℚ) / total_time else 0,
      average_response_time := avg_response_time,
      technique_breakdown := [],
      concurrent_connections := max_workers,
      host := host }
  (detected, metrics)

/-- Peak number of simultaneously in-flight probe operations during
`scan_port_range`.  The source builds one task per worklist port and starts
them all with a single `asyncio.gather` (`engine.py:454-483`); no semaphore,
queue or pool ever consults `max_workers`, and each task immediately awaits
its network operation, so all of the created probes are in flight at once:
the peak equals the number of tasks. -/
def peak_in_flight (start_port end_port : ℕ) (use_common_ports : Bool)
    (technique : String) : ℕ :=
  if technique = "tcp_connect" ∨ technique = "hybrid" ∨ technique = "syn" ∨
      technique = "udp" then
    (ports_to_scan start_port end_port use_common_ports).length
  else 0

/-! ## Metrics module (`metrics.py`) -/

/-- One entry of `MetricsCollector.scan_results` as stored by `record_scan`
(`metrics.py:101-122`).  The Python code is duck-typed: `services` must be
comparable with the ground-truth values for the set operations in
`calculate_precision_recall` to be meaningful, and the spec's worked example
records the found port numbers as the services, so both are modelled as
natural numbers. -/
structure ScanRecord where
  target : String
  open_ports : List ℕ
  closed_ports : List ℕ
  filtered_ports : List ℕ
  services : List ℕ
deriving Repr, DecidableEq

/-- Return value of `calculate_precision_recall`. -/
structure PrecisionRecall where
  precision : ℚ
  recall' : ℚ
  f1_score : ℚ
  accuracy : ℚ
  tp : ℕ
  fp : ℕ
  fn : ℕ
  tn : ℕ
deriving Repr, DecidableEq

/-- The confusion-count accumulation loop of `calculate_precision_recall`
(`metrics.py:142-150`): per recorded scan, intersect the found service set
with the expected set (`ground_truth_services.get(target, [])`), and add the
closed-port list length to the true negatives. -/
def confusionCounts (scans : List ScanRecord)
    (ground_truth : List (String × List ℕ)) : ℕ × ℕ × ℕ × ℕ :=
  scans.foldl (fun acc scan =>
    let found := scan.services.toFinset
    let expected := ((ground_truth.lookup scan.target).getD []).toFinset
    (acc.1 + (found ∩ expected).card,
     acc.2.1 + (found \ expected).card,
     acc.2.2.1 + (expected \ found).card,
     acc.2.2.2 + scan.closed_ports.length)) (0, 0, 0, 0)

/-- The rate computations of `calculate_precision_recall`
(`metrics.py:152-168`), with every division guarded by a positivity test on
its denominator. -/
def precisionRecallOf (tp fp fn tn : ℕ) : PrecisionRecall :=
  let total := tp + fp + fn + tn
  let precision : ℚ := if tp + fp > 0 then (tp : ℚ) / ((tp : ℚ) + fp) else 0
  let recall' : ℚ := if tp + fn > 0 then (tp : ℚ) / ((tp : ℚ) + fn) else 0
  let f1 : ℚ :=
    if precision + recall' > 0 then
      2 * (precision * recall') / (precision + recall')
    else 0
  let accuracy : ℚ :=
    if total > 0 then ((tp : ℚ) + tn) / (total : ℚ) else 0
  { precision := precision, recall' := recall', f1_score := f1,
    accuracy := accuracy, tp := tp, fp := fp, fn := fn, tn := tn }

/-- `MetricsCollector.calculate_precision_recall` (`metrics.py:124-168`). -/
def calculate_precision_recall (scans : List ScanRecord)
    (ground_truth : List (String × List ℕ)) : PrecisionRecall :=
  let c := confusionCounts scans ground_truth
  precisionRecallOf c.1 c.2.1 c.2.2.1 c.2.2.2

/-- `MetricsCollector.calculate_service_diversity` (`metrics.py:170-191`).
The dict `service_counts` holds one entry per distinct service name with its
multiplicity (every count is positive, so the `if count > 0` guard in the
loop never skips), and the loop subtracts `p * (p ** 0.5)` per entry; real
addition is commutative, so folding over `dedup` reproduces the dict-value
iteration. -/
noncomputable def calculate_service_diversity (services_found : List String) :
    ℝ :=
  if services_found = [] then 0
  else
    let total : ℝ := services_found.length ;
    -(((services_found.dedup).map (fun s =>
        let p : ℝ := (services_found.count s : ℝ) / total ;
        p * Real.sqrt p)).sum)

/-- The claim's formula, stated independently over the distribution of
distinct service names: `-Σ p·sqrt(p)` with `p` the relative frequency of
each distinct service. -/
noncomputable def diversityClaimFormula (services_found : List String) : ℝ :=
  -(∑ s ∈ services_found.toFinset,
      ((services_found.count s : ℝ) / services_found.length) *
        Real.sqrt ((services_found.count s : ℝ) / services_found.length))

/-- Standard Shannon entropy over the same distribution, `-Σ p·log(p)`,
used only to witness that the source's formula is not Shannon entropy. -/
noncomputable def shannonDiversity (services_found : List String) : ℝ :=
  -(∑ s ∈ services_found.toFinset,
      ((services_found.count s : ℝ) / services_found.length) *
        Real.log ((services_found.count s : ℝ) / services_found.length))

/-! ## Helper lemmas -/

/-- The statuses a scan result can carry. -/
def goodStatus (s : String) : Prop :=
  s = "open" ∨ s = "closed" ∨ s = "filtered" ∨ s = "open|filtered"

lemma service_detection_status (r : PortScanResult) (o : SDOutcome) :
    (service_detection r o).status = r.status := by
  unfold service_detection
  split
  · rfl
  · cases o with
    | connectFail => rfl
    | connected raw =>
      dsimp only
      split <;> rfl

lemma service_detection_port (r : PortScanResult) (o : SDOutcome) :
    (service_detection r o).port = r.port := by
  unfold service_detection
  split
  · rfl
  · cases o with
    | connectFail => rfl
    | connected raw =>
      dsimp only
      split <;> rfl

lemma service_detection_host (r : PortScanResult) (o : SDOutcome) :
    (service_detection r o).host = r.host := by
  unfold service_detection
  split
  · rfl
  · cases o with
    | connectFail => rfl
    | connected raw =>
      dsimp only
      split <;> rfl

lemma service_detection_service (r : PortScanResult) (o : SDOutcome) :
    (service_detection r o).service = r.service := by
  unfold service_detection
  split
  · rfl
  · cases o with
    | connectFail => rfl
    | connected raw =>
      dsimp only
      split <;> rfl

lemma service_detection_response_time (r : PortScanResult) (o : SDOutcome) :
    (service_detection r o).response_time = r.response_time := by
  unfold service_detection
  split
  · rfl
  · cases o with
    | connectFail => rfl
    | connected raw =>
      dsimp only
      split <;> rfl

lemma service_detection_not_open (r : PortScanResult) (o : SDOutcome)
    (h : r.status ≠ "open") : service_detection r o = r := by
  unfold service_detection
  rw [if_pos h]

lemma service_detection_connectFail (r : PortScanResult) :
    service_detection r .connectFail = r := by
  unfold service_detection
  split <;> rfl

lemma service_detection_empty_read (r : PortScanResult) :
    service_detection r (.connected []) = r := by
  unfold service_detection
  split
  · rfl
  · dsimp only
    split
    · simp_all
    · rfl

lemma postDetect_status (env : NetEnv) (r : PortScanResult) :
    (postDetect env r).status = r.status := by
  unfold postDetect
  split
  · exact service_detection_status _ _
  · rfl

lemma postDetect_port (env : NetEnv) (r : PortScanResult) :
    (postDetect env r).port = r.port := by
  unfold postDetect
  split
  · exact service_detection_port _ _
  · rfl

lemma tcp_connect_scan_goodStatus (host : String) (p : ℕ) (o : TcpOutcome) :
    goodStatus (tcp_connect_scan host p o).status := by
  cases o <;> simp [tcp_connect_scan, goodStatus]

lemma tcp_connect_scan_port (host : String) (p : ℕ) (o : TcpOutcome) :
    (tcp_connect_scan host p o).port = p := by
  cases o <;> rfl

lemma syn_scan_sync_goodStatus (host : String) (p : ℕ) (o : SynOutcome)
    (r : PortScanResult) (h : syn_scan_sync host p o = some r) :
    goodStatus r.status := by
  cases o with
  | completed code rt =>
    unfold syn_scan_sync at h
    dsimp only at h
    split at h <;>
      (injection h with h; subst h; simp [goodStatus])
  | error => exact absurd h (by simp [syn_scan_sync])

lemma udp_scan_goodStatus (host : String) (p : ℕ) (o : UdpOutcome)
    (r : PortScanResult) (h : udp_scan host p o = some r) :
    goodStatus r.status := by
  cases o with
  | reply rt =>
    injection h with h
    subst h
    simp [goodStatus]
  | noReply rt =>
    injection h with h
    subst h
    simp [goodStatus]
  | error => exact absurd h (by simp [udp_scan])

/-- Each of the four reachable statuses falls in exactly one of the three
count buckets of the metrics computation. -/
lemma goodStatus_partition (s : String) (h : goodStatus s) :
    ((if s = "open" then 1 else 0) + (if s = "closed" then 1 else 0) +
        (if statusFiltered s then 1 else 0) : ℕ) = 1 := by
  rcases h with h | h | h | h <;> subst h <;> decide

/-- A list whose statuses are all reachable splits exactly into the three
buckets. -/
lemma filter_status_partition (l : List PortScanResult)
    (h : ∀ r ∈ l, goodStatus r.status) :
    (l.filter (fun r => r.status = "open")).length +
      (l.filter (fun r => r.status = "closed")).length +
      (l.filter (fun r => statusFiltered r.status)).length = l.length := by
  induction l with
  | nil => simp
  | cons r t ih =>
    have hr := h r (List.mem_cons_self r t)
    have ht := ih (fun x hx => h x (List.mem_cons_of_mem r hx))
    have hone := goodStatus_partition r.status hr
    simp only [List.filter_cons, List.length_cons]
    rcases hr with h1 | h1 | h1 | h1 <;>
      simp only [h1] at hone ⊢ <;>
      split <;> split <;> split <;> simp_all <;> omega

/-- Every result surviving to `valid_results` carries one of the four
reachable statuses. -/
lemma validResults_goodStatus (env : NetEnv) (host : String)
    (sp ep : ℕ) (uc : Bool) (tech : String) :
    ∀ x ∈ validResults env host sp ep uc tech, goodStatus x.status := by
  intro x hx
  unfold validResults at hx
  rw [List.mem_filterMap] at hx
  obtain ⟨r?, hr?, hmap⟩ := hx
  cases r? with
  | none => simp at hmap
  | some r =>
    simp only [Option.map_some'] at hmap
    injection hmap with hmap
    subst hmap
    rw [postDetect_status]
    unfold scanTasks at hr?
    split at hr?
    · rw [List.mem_map] at hr?
      obtain ⟨p, _, hp⟩ := hr?
      injection hp with hp
      subst hp
      exact tcp_connect_scan_goodStatus host p (env.tcp p)
    · split at hr?
      · rw [List.mem_map] at hr?
        obtain ⟨p, _, hp⟩ := hr?
        exact syn_scan_sync_goodStatus host p (env.syn p) r hp
      · split at hr?
        · rw [List.mem_map] at hr?
          obtain ⟨p, _, hp⟩ := hr?
          exact udp_scan_goodStatus host p (env.udp p) r hp
        · simp at hr?

/-- For the `tcp_connect` and `hybrid` techniques the task list maps each
worklist port through the total `tcp_connect_scan`, so `valid_results` is a
map over the worklist. -/
lemma validResults_tcp (env : NetEnv) (host : String) (sp ep : ℕ) (uc : Bool)
    (tech : String) (htech : tech = "tcp_connect" ∨ tech = "hybrid") :
    validResults env host sp ep uc tech =
      (ports_to_scan sp ep uc).map
        (fun p => postDetect env (tcp_connect_scan host p (env.tcp p))) := by
  unfold validResults scanTasks
  rw [if_pos htech]
  induction ports_to_scan sp ep uc with
  | nil => rfl
  | cons p t ih => simp only [List.map_cons, List.filterMap_cons, ih]; rfl

/-- Under `tcp_connect`/`hybrid` every worklist port contributes exactly one
result, in worklist order. -/
lemma validResults_tcp_ports (env : NetEnv) (host : String) (sp ep : ℕ)
    (uc : Bool) (tech : String)
    (htech : tech = "tcp_connect" ∨ tech = "hybrid") :
    (validResults env host sp ep uc tech).map (fun r => r.port) =
      ports_to_scan sp ep uc := by
  rw [validResults_tcp env host sp ep uc tech htech, List.map_map]
  have : ∀ p : ℕ,
      ((fun r => r.port) ∘
        fun p => postDetect env (tcp_connect_scan host p (env.tcp p))) p = p := by
    intro p
    simp only [Function.comp_apply]
    rw [postDetect_port, tcp_connect_scan_port]
  induction ports_to_scan sp ep uc with
  | nil => rfl
  | cons p t ih => simp only [List.map_cons, this, ih]

/-- `commonDetected` preserves per-status filter counts of `commonValid`. -/
lemma commonDetected_filter_count (env : NetEnv) (host : String)
    (p : String → Bool) :
    ((commonDetected env host).filter (fun r => p r.status)).length =
      ((commonValid env host).filter (fun r => p r.status)).length := by
  unfold commonDetected
  induction commonValid env host with
  | nil => rfl
  | cons r t ih =>
    simp only [List.map_cons, List.filter_cons, postDetect_status]
    split <;> simp [ih]

/-- Every entry of `commonDetected` has a reachable status. -/
lemma commonDetected_goodStatus (env : NetEnv) (host : String) :
    ∀ x ∈ commonDetected env host, goodStatus x.status := by
  intro x hx
  unfold commonDetected commonValid at hx
  rw [List.mem_map] at hx
  obtain ⟨r, hr, hrx⟩ := hx
  subst hrx
  rw [postDetect_status]
  rw [List.mem_map] at hr
  obtain ⟨p, _, hp⟩ := hr
  subst hp
  exact tcp_connect_scan_goodStatus host p (env.tcp p)

/-- Every entry of `commonDetected` keeps the port of its worklist entry. -/
lemma commonDetected_ports (env : NetEnv) (host : String) :
    (commonDetected env host).map (fun r => r.port) = COMMON_PORTS := by
  unfold commonDetected commonValid
  rw [List.map_map, List.map_map]
  induction COMMON_PORTS with
  | nil => rfl
  | cons p t ih =>
    simp only [List.map_cons, Function.comp_apply, postDetect_port,
      tcp_connect_scan_port, ih]

/-- The wall-clock time `time.time() - start_time` recorded for a TCP
connect probe outcome. -/
def TcpOutcome.rt : TcpOutcome → ℚ
  | .success t _ => t
  | .timeout t => t
  | .refused t => t
  | .otherError t => t

/-! ## Claim theorems -/

/-- C3: `tcp_connect_scan` is a total mapping from connection outcome to a
`PortScanResult` (no exception escapes: every outcome, including every error
outcome, produces a result): a completed handshake yields status `open`, a
refused connection yields `closed`, a timeout or any other network error
yields `filtered`, and in every outcome the result carries the recorded
response time. -/
theorem tcp_connect_scan_total_mapping (host : String) (p : ℕ)
    (o : TcpOutcome) :
    ((∃ t g, o = .success t g) →
      (tcp_connect_scan host p o).status = "open")
    ∧ ((∃ t, o = .timeout t) →
      (tcp_connect_scan host p o).status = "filtered")
    ∧ ((∃ t, o = .refused t) →
      (tcp_connect_scan host p o).status = "closed")
    ∧ ((∃ t, o = .otherError t) →
      (tcp_connect_scan host p o).status = "filtered")
    ∧ (tcp_connect_scan host p o).response_time = o.rt := by
  cases o <;> simp [tcp_connect_scan, TcpOutcome.rt]

/-- Witness for C3 at a concrete refused connection. -/
theorem tcp_connect_scan_total_mapping_witness :
    (tcp_connect_scan "example.com" 80 (.refused 1)).status = "closed"
    ∧ (tcp_connect_scan "example.com" 80 (.refused 1)).response_time = 1 :=
  ⟨(tcp_connect_scan_total_mapping "example.com" 80 (.refused 1)).2.2.1
      ⟨1, rfl⟩,
   (tcp_connect_scan_total_mapping "example.com" 80 (.refused 1)).2.2.2.2⟩

/-- C5 counterexample: a network error during the UDP probe is NOT folded
into an `open_or_filtered`/`filtered` classification — `udp_scan` returns
`None`, i.e. a missing result, which the orchestrator silently drops. -/
theorem udp_scan_error_missing_result :
    udp_scan "203.0.113.5" 53 .error = none := rfl

/-- C5 (amended): the UDP probe sends an empty datagram; a reply within the
timeout yields status `open`, absence of a reply yields the ambiguous status
`open|filtered` (preserved, never resolved), and a network error yields no
result at all (`None`) rather than an exception. -/
theorem udp_scan_classification (host : String) (p : ℕ) (o : UdpOutcome) :
    (∀ t, o = .reply t → ∃ r, udp_scan host p o = some r ∧
      r.status = "open" ∧ r.response_time = t)
    ∧ (∀ t, o = .noReply t → ∃ r, udp_scan host p o = some r ∧
      r.status = "open|filtered" ∧ r.response_time = t)
    ∧ (o = .error → udp_scan host p o = none) := by
  refine ⟨?_, ?_, ?_⟩
  · intro t ht
    subst ht
    exact ⟨_, rfl, rfl, rfl⟩
  · intro t ht
    subst ht
    exact ⟨_, rfl, rfl, rfl⟩
  · intro h
    subst h
    rfl

/-- Witness for C5's amended theorem at a concrete silent UDP probe. -/
theorem udp_scan_classification_witness :
    ∃ r, udp_scan "203.0.113.5" 161 (.noReply 3) = some r ∧
      r.status = "open|filtered" ∧ r.response_time = 3 :=
  (udp_scan_classification "203.0.113.5" 161 (.noReply 3)).2.1 3 rfl

lemma scan_port_range_total_time (env : NetEnv) (host : String) (sp ep : ℕ)
    (uc : Bool) (tech : String) (mw : ℕ) :
    (scan_port_range env host sp ep uc tech mw).2.total_time =
      env.total_time := rfl

lemma scan_port_range_pps (env : NetEnv) (host : String) (sp ep : ℕ)
    (uc : Bool) (tech : String) (mw : ℕ) :
    (scan_port_range env host sp ep uc tech mw).2.ports_per_second =
      (if env.total_time > 0 then
        ((validResults env host sp ep uc tech).length : ℚ) / env.total_time
       else 0) := rfl

lemma scan_port_range_total (env : NetEnv) (host : String) (sp ep : ℕ)
    (uc : Bool) (tech : String) (mw : ℕ) :
    (scan_port_range env host sp ep uc tech mw).2.total_ports_scanned =
      (validResults env host sp ep uc tech).length := rfl

lemma scan_common_ports_total_time (env : NetEnv) (host : String) (mw : ℕ) :
    (scan_common_ports env host mw).2.total_time = env.total_time := rfl

lemma scan_common_ports_pps (env : NetEnv) (host : String) (mw : ℕ) :
    (scan_common_ports env host mw).2.ports_per_second =
      (if env.total_time > 0 then
        ((commonDetected env host).length : ℚ) / env.total_time
       else 0) := rfl

lemma scan_common_ports_total (env : NetEnv) (host : String) (mw : ℕ) :
    (scan_common_ports env host mw).2.total_ports_scanned =
      (commonDetected env host).length := rfl

/-- C9: in every `ScanMetrics` produced by `scan_port_range` or
`scan_common_ports`, `ports_per_second` equals `total_ports_scanned`
divided by `total_time` when `total_time > 0`, and equals `0` when
`total_time = 0`: the computation never divides by zero. -/
theorem ports_per_second_no_div_by_zero (env : NetEnv) (host : String)
    (sp ep : ℕ) (uc : Bool) (tech : String) (mw : ℕ) :
    ((scan_port_range env host sp ep uc tech mw).2.total_time > 0 →
      (scan_port_range env host sp ep uc tech mw).2.ports_per_second =
        ((scan_port_range env host sp ep uc tech mw).2.total_ports_scanned :
            ℚ) / (scan_port_range env host sp ep uc tech mw).2.total_time)
    ∧ ((scan_port_range env host sp ep uc tech mw).2.total_time = 0 →
      (scan_port_range env host sp ep uc tech mw).2.ports_per_second = 0)
    ∧ ((scan_common_ports env host mw).2.total_time > 0 →
      (scan_common_ports env host mw).2.ports_per_second =
        ((scan_common_ports env host mw).2.total_ports_scanned : ℚ) /
          (scan_common_ports env host mw).2.total_time)
    ∧ ((scan_common_ports env host mw).2.total_time = 0 →
      (scan_common_ports env host mw).2.ports_per_second = 0) := by
  refine ⟨?_, ?_, ?_, ?_⟩
  · intro h
    rw [scan_port_range_total_time] at h
    rw [scan_port_range_pps, scan_port_range_total,
      scan_port_range_total_time, if_pos h]
  · intro h
    rw [scan_port_range_total_time] at h
    rw [scan_port_range_pps, if_neg (by rw [h]; exact lt_irrefl 0)]
  · intro h
    rw [scan_common_ports_total_time] at h
    rw [scan_common_ports_pps, scan_common_ports_total,
      scan_common_ports_total_time, if_pos h]
  · intro h
    rw [scan_common_ports_total_time] at h
    rw [scan_common_ports_pps, if_neg (by rw [h]; exact lt_irrefl 0)]

/-- Witness for C9 at a concrete scan with zero elapsed time. -/
theorem ports_per_second_no_div_by_zero_witness :
    (scan_port_range
        { tcp := fun _ => .refused 0, syn := fun _ => .error,
          udp := fun _ => .error, sd := fun _ => .connectFail,
          elapsed := fun _ => 0, total_time := 0 }
        "h" 1 3 false "tcp_connect" 50).2.ports_per_second = 0 :=
  (ports_per_second_no_div_by_zero
      { tcp := fun _ => .refused 0, syn := fun _ => .error,
        udp := fun _ => .error, sd := fun _ => .connectFail,
        elapsed := fun _ => 0, total_time := 0 }
      "h" 1 3 false "tcp_connect" 50).2.1 rfl

/-- C10: invoking `scan_port_range` with technique `hybrid` is
observationally equivalent to invoking it with `tcp_connect` on the same
host, range and prioritisation flag: the two share the
`technique == "tcp_connect" or technique == "hybrid"` branch, so `hybrid`
launches exactly the TCP-connect tasks (no UDP or SYN tasks) and the result
sequence and metrics are produced by the same computation. -/
theorem hybrid_equiv_tcp_connect (env : NetEnv) (host : String) (sp ep : ℕ)
    (uc : Bool) (mw : ℕ) :
    scan_port_range env host sp ep uc "hybrid" mw =
      scan_port_range env host sp ep uc "tcp_connect" mw
    ∧ scanTasks env host sp ep uc "hybrid" =
      (ports_to_scan sp ep uc).map
        (fun p => some (tcp_connect_scan host p (env.tcp p))) := by
  constructor
  · rfl
  · rfl

/-- C2 (defect documented by the spec): `scan_port_range` creates one probe
task per worklist port and starts them all with a single `asyncio.gather`;
nothing consults `max_workers` while scanning, so a 1000-port scan with a
concurrency limit of 50 has 1000 probes in flight, violating the claimed
bound.  `max_workers` influences nothing but the reported
`concurrent_connections` metrics field. -/
theorem concurrency_limit_not_enforced :
    peak_in_flight 1 1000 false "tcp_connect" = 1000
    ∧ ¬ peak_in_flight 1 1000 false "tcp_connect" ≤ 50
    ∧ (∀ (env : NetEnv) (host : String) (sp ep : ℕ) (uc : Bool)
        (tech : String) (mw : ℕ),
        (scan_port_range env host sp ep uc tech mw).1 =
          (scan_port_range env host sp ep uc tech 0).1)
    ∧ (∀ (env : NetEnv) (host : String) (sp ep : ℕ) (uc : Bool)
        (tech : String) (mw : ℕ),
        (scan_port_range env host sp ep uc tech mw).2.concurrent_connections
          = mw) := by
  have h : peak_in_flight 1 1000 false "tcp_connect" = 1000 := by
    unfold peak_in_flight
    rw [if_pos (Or.inl rfl)]
    simp [ports_to_scan]
  exact ⟨h, by rw [h]; omega, fun _ _ _ _ _ _ _ => rfl,
    fun _ _ _ _ _ _ _ => rfl⟩

lemma scan_port_range_open (env : NetEnv) (host : String) (sp ep : ℕ)
    (uc : Bool) (tech : String) (mw : ℕ) :
    (scan_port_range env host sp ep uc tech mw).2.open_ports_found =
      ((validResults env host sp ep uc tech).filter
        (fun r => r.status = "open")).length := rfl

lemma scan_port_range_closed (env : NetEnv) (host : String) (sp ep : ℕ)
    (uc : Bool) (tech : String) (mw : ℕ) :
    (scan_port_range env host sp ep uc tech mw).2.closed_ports =
      ((validResults env host sp ep uc tech).filter
        (fun r => r.status = "closed")).length := rfl

lemma scan_port_range_filtered (env : NetEnv) (host : String) (sp ep : ℕ)
    (uc : Bool) (tech : String) (mw : ℕ) :
    (scan_port_range env host sp ep uc tech mw).2.filtered_ports =
      ((validResults env host sp ep uc tech).filter
        (fun r => statusFiltered r.status)).length := rfl

lemma scan_common_ports_open (env : NetEnv) (host : String) (mw : ℕ) :
    (scan_common_ports env host mw).2.open_ports_found =
      ((commonValid env host).filter
        (fun r => r.status = "open")).length := rfl

lemma scan_common_ports_closed (env : NetEnv) (host : String) (mw : ℕ) :
    (scan_common_ports env host mw).2.closed_ports =
      ((commonDetected env host).filter
        (fun r => r.status = "closed")).length := rfl

lemma scan_common_ports_filtered (env : NetEnv) (host : String) (mw : ℕ) :
    (scan_common_ports env host mw).2.filtered_ports =
      ((commonDetected env host).filter
        (fun r => statusFiltered r.status)).length := rfl

/-- An environment in which every network interaction fails: under the `udp`
technique every probe then returns `None`. -/
def envUdpError : NetEnv :=
  { tcp := fun _ => .otherError 0, syn := fun _ => .error,
    udp := fun _ => .error, sd := fun _ => .connectFail,
    elapsed := fun _ => 0, total_time := 0 }

/-- C1 counterexample: under the `udp` technique a probe that raises returns
`None` and the port is dropped — the built worklist `[1]` has one port, yet
the scan returns no result and every count is `0`, so not every worklist
port contributes a result. -/
theorem scan_drops_errored_udp_port :
    ports_to_scan 1 1 false = [1]
    ∧ (scan_port_range envUdpError "h" 1 1 false "udp" 50).1 = []
    ∧ (scan_port_range envUdpError "h" 1 1 false "udp" 50).2.total_ports_scanned
        = 0 :=
  ⟨rfl, rfl, rfl⟩

/-- C1 (amended): every `ScanMetrics` produced by `scan_port_range` or
`scan_common_ports` satisfies
`total_ports_scanned = open_ports_found + closed_ports + filtered_ports`,
with each surviving result counted in exactly one bucket (`open`, `closed`,
or a status containing "filtered"); under the `tcp_connect` and `hybrid`
techniques — and always for `scan_common_ports` — every port of the built
worklist contributes exactly one result, in worklist order.  (Under `syn`
and `udp`, a port whose probe raises yields `None` and is dropped, so the
per-port exactness is restricted to the total techniques.) -/
theorem scan_metrics_partition (env : NetEnv) (host : String) (sp ep : ℕ)
    (uc : Bool) (tech : String) (mw : ℕ) :
    ((scan_port_range env host sp ep uc tech mw).2.total_ports_scanned =
      (scan_port_range env host sp ep uc tech mw).2.open_ports_found +
        (scan_port_range env host sp ep uc tech mw).2.closed_ports +
        (scan_port_range env host sp ep uc tech mw).2.filtered_ports)
    ∧ ((scan_port_range env host sp ep uc tech mw).2.total_ports_scanned =
      (scan_port_range env host sp ep uc tech mw).1.length)
    ∧ (tech = "tcp_connect" ∨ tech = "hybrid" →
      (scan_port_range env host sp ep uc tech mw).1.map (fun r => r.port) =
        ports_to_scan sp ep uc)
    ∧ ((scan_common_ports env host mw).2.total_ports_scanned =
      (scan_common_ports env host mw).2.open_ports_found +
        (scan_common_ports env host mw).2.closed_ports +
        (scan_common_ports env host mw).2.filtered_ports)
    ∧ ((scan_common_ports env host mw).1.map (fun r => r.port) =
      COMMON_PORTS) := by
  refine ⟨?_, rfl, ?_, ?_, commonDetected_ports env host⟩
  · rw [scan_port_range_total, scan_port_range_open, scan_port_range_closed,
      scan_port_range_filtered]
    exact (filter_status_partition _
      (validResults_goodStatus env host sp ep uc tech)).symm
  · intro htech
    exact validResults_tcp_ports env host sp ep uc tech htech
  · rw [scan_common_ports_total, scan_common_ports_open,
      scan_common_ports_closed, scan_common_ports_filtered]
    have hpart := filter_status_partition (commonDetected env host)
      (commonDetected_goodStatus env host)
    have hopen : ((commonDetected env host).filter
          (fun r => r.status = "open")).length =
        ((commonValid env host).filter
          (fun r => r.status = "open")).length :=
      commonDetected_filter_count env host (fun s => decide (s = "open"))
    omega

/-- An environment in which every TCP connect probe is refused. -/
def envAllRefused : NetEnv :=
  { tcp := fun _ => .refused 1, syn := fun _ => .error,
    udp := fun _ => .error, sd := fun _ => .connectFail,
    elapsed := fun _ => 1, total_time := 1 }

/-- Witness for C1's amended theorem at a concrete three-port TCP scan. -/
theorem scan_metrics_partition_witness :
    (scan_port_range envAllRefused "h" 1 3 false "tcp_connect" 50).2.total_ports_scanned
      = (scan_port_range envAllRefused "h" 1 3 false "tcp_connect" 50).2.open_ports_found
        + (scan_port_range envAllRefused "h" 1 3 false "tcp_connect" 50).2.closed_ports
        + (scan_port_range envAllRefused "h" 1 3 false "tcp_connect" 50).2.filtered_ports
    ∧ (scan_port_range envAllRefused "h" 1 3 false "tcp_connect" 50).1.map
        (fun r => r.port) = ports_to_scan 1 3 false :=
  ⟨(scan_metrics_partition envAllRefused "h" 1 3 false "tcp_connect" 50).1,
   (scan_metrics_partition envAllRefused "h" 1 3 false "tcp_connect" 50).2.2.1
     (Or.inl rfl)⟩

/-- C4: `service_detection` returns a non-`open` result unchanged, never
changes the `status` field (so an `open` classification is never
downgraded), leaves the result entirely unchanged when the detection
connection fails or nothing is read (banner and version not filled in), and
in every case only the `banner` and `version` fields can differ from the
input. -/
theorem service_detection_frame (r : PortScanResult) (o : SDOutcome) :
    (r.status ≠ "open" → service_detection r o = r)
    ∧ (service_detection r o).status = r.status
    ∧ (service_detection r o).host = r.host
    ∧ (service_detection r o).port = r.port
    ∧ (service_detection r o).service = r.service
    ∧ (service_detection r o).response_time = r.response_time
    ∧ (o = .connectFail → service_detection r o = r)
    ∧ (o = .connected [] → service_detection r o = r) :=
  ⟨fun h => service_detection_not_open r o h,
   service_detection_status r o, service_detection_host r o,
   service_detection_port r o, service_detection_service r o,
   service_detection_response_time r o,
   fun h => h ▸ service_detection_connectFail r,
   fun h => h ▸ service_detection_empty_read r⟩

/-- Witness for C4 at a non-`open` result and at a failed detection
connection on an `open` result. -/
theorem service_detection_frame_witness :
    service_detection
        { host := "h", port := 22, status := "closed", response_time := 1 }
        (.connected "x".toList) =
      { host := "h", port := 22, status := "closed", response_time := 1 }
    ∧ service_detection
        { host := "h", port := 22, status := "open", service := "SSH",
          response_time := 1 } .connectFail =
      { host := "h", port := 22, status := "open", service := "SSH",
        response_time := 1 } :=
  ⟨(service_detection_frame _ (.connected "x".toList)).1 (by decide),
   (service_detection_frame _ .connectFail).2.2.2.2.2.2.1 rfl⟩

lemma precisionRecallOf_spec (tp fp fn tn : ℕ) :
    (tp + fp > 0 → (precisionRecallOf tp fp fn tn).precision =
      (tp : ℚ) / ((tp : ℚ) + (fp : ℚ)))
    ∧ (tp + fp = 0 → (precisionRecallOf tp fp fn tn).precision = 0)
    ∧ (tp + fn > 0 → (precisionRecallOf tp fp fn tn).recall' =
      (tp : ℚ) / ((tp : ℚ) + (fn : ℚ)))
    ∧ (tp + fn = 0 → (precisionRecallOf tp fp fn tn).recall' = 0)
    ∧ ((precisionRecallOf tp fp fn tn).precision +
          (precisionRecallOf tp fp fn tn).recall' > 0 →
      (precisionRecallOf tp fp fn tn).f1_score =
        2 * ((precisionRecallOf tp fp fn tn).precision *
            (precisionRecallOf tp fp fn tn).recall') /
          ((precisionRecallOf tp fp fn tn).precision +
            (precisionRecallOf tp fp fn tn).recall'))
    ∧ (¬ (precisionRecallOf tp fp fn tn).precision +
          (precisionRecallOf tp fp fn tn).recall' > 0 →
      (precisionRecallOf tp fp fn tn).f1_score = 0)
    ∧ (tp + fp + fn + tn > 0 → (precisionRecallOf tp fp fn tn).accuracy =
      ((tp : ℚ) + (tn : ℚ)) / ((tp + fp + fn + tn : ℕ) : ℚ))
    ∧ (tp + fp + fn + tn = 0 →
      (precisionRecallOf tp fp fn tn).accuracy = 0) := by
  unfold precisionRecallOf
  dsimp only
  refine ⟨fun h => ?_, fun h => ?_, fun h => ?_, fun h => ?_, fun h => ?_,
    fun h => ?_, fun h => ?_, fun h => ?_⟩
  · rw [if_pos h]
  · rw [if_neg (by omega)]
  · rw [if_pos h]
  · rw [if_neg (by omega)]
  · rw [if_pos h]
  · rw [if_neg h]
  · rw [if_pos h]
  · rw [if_neg (by omega)]

/-- The recorded scan of the claim's worked example: one scan of
`a.example.com` whose found services are the port numbers 80, 443, 8080. -/
def exampleScan : ScanRecord :=
  { target := "a.example.com", open_ports := [80, 443, 8080],
    closed_ports := [], filtered_ports := [], services := [80, 443, 8080] }

/-- The ground truth of the claim's worked example. -/
def exampleGroundTruth : List (String × List ℕ) := [("a.example.com", [80, 443])]

/-- C6: `calculate_precision_recall` returns precision = TP/(TP+FP),
recall = TP/(TP+FN), F1 = 2·P·R/(P+R) and accuracy = (TP+TN)/total, each
rate `0` when its denominator is `0` (no division by zero, no exception);
on ground truth `{"a.example.com": [80, 443]}` and one recorded scan of
that target with found services `[80, 443, 8080]` it yields TP=2, FP=1,
FN=0, precision=2/3, recall=1, F1=4/5 (= 0.8). -/
theorem calculate_precision_recall_spec (scans : List ScanRecord)
    (gt : List (String × List ℕ)) :
    ((calculate_precision_recall scans gt).tp +
        (calculate_precision_recall scans gt).fp > 0 →
      (calculate_precision_recall scans gt).precision =
        ((calculate_precision_recall scans gt).tp : ℚ) /
          (((calculate_precision_recall scans gt).tp : ℚ) +
            ((calculate_precision_recall scans gt).fp : ℚ)))
    ∧ ((calculate_precision_recall scans gt).tp +
        (calculate_precision_recall scans gt).fp = 0 →
      (calculate_precision_recall scans gt).precision = 0)
    ∧ ((calculate_precision_recall scans gt).tp +
        (calculate_precision_recall scans gt).fn > 0 →
      (calculate_precision_recall scans gt).recall' =
        ((calculate_precision_recall scans gt).tp : ℚ) /
          (((calculate_precision_recall scans gt).tp : ℚ) +
            ((calculate_precision_recall scans gt).fn : ℚ)))
    ∧ ((calculate_precision_recall scans gt).tp +
        (calculate_precision_recall scans gt).fn = 0 →
      (calculate_precision_recall scans gt).recall' = 0)
    ∧ ((calculate_precision_recall scans gt).precision +
        (calculate_precision_recall scans gt).recall' > 0 →
      (calculate_precision_recall scans gt).f1_score =
        2 * ((calculate_precision_recall scans gt).precision *
            (calculate_precision_recall scans gt).recall') /
          ((calculate_precision_recall scans gt).precision +
            (calculate_precision_recall scans gt).recall'))
    ∧ (¬ (calculate_precision_recall scans gt).precision +
        (calculate_precision_recall scans gt).recall' > 0 →
      (calculate_precision_recall scans gt).f1_score = 0)
    ∧ ((calculate_precision_recall scans gt).tp +
        (calculate_precision_recall scans gt).fp +
        (calculate_precision_recall scans gt).fn +
        (calculate_precision_recall scans gt).tn > 0 →
      (calculate_precision_recall scans gt).accuracy =
        (((calculate_precision_recall scans gt).tp : ℚ) +
            ((calculate_precision_recall scans gt).tn : ℚ)) /
          (((calculate_precision_recall scans gt).tp +
              (calculate_precision_recall scans gt).fp +
              (calculate_precision_recall scans gt).fn +
              (calculate_precision_recall scans gt).tn : ℕ) : ℚ))
    ∧ ((calculate_precision_recall scans gt).tp +
        (calculate_precision_recall scans gt).fp +
        (calculate_precision_recall scans gt).fn +
        (calculate_precision_recall scans gt).tn = 0 →
      (calculate_precision_recall scans gt).accuracy = 0)
    ∧ (calculate_precision_recall [exampleScan] exampleGroundTruth).tp = 2
    ∧ (calculate_precision_recall [exampleScan] exampleGroundTruth).fp = 1
    ∧ (calculate_precision_recall [exampleScan] exampleGroundTruth).fn = 0
    ∧ (calculate_precision_recall [exampleScan] exampleGroundTruth).precision
        = 2 / 3
    ∧ (calculate_precision_recall [exampleScan] exampleGroundTruth).recall'
        = 1
    ∧ (calculate_precision_recall [exampleScan] exampleGroundTruth).f1_score
        = 4 / 5 := by
  have h := precisionRecallOf_spec (confusionCounts scans gt).1
    (confusionCounts scans gt).2.1 (confusionCounts scans gt).2.2.1
    (confusionCounts scans gt).2.2.2
  have hcc : confusionCounts [exampleScan] exampleGroundTruth =
      (2, 1, 0, 0) := by decide
  have hcpr : calculate_precision_recall [exampleScan] exampleGroundTruth =
      precisionRecallOf 2 1 0 0 := by
    unfold calculate_precision_recall
    rw [hcc]
  have hval : precisionRecallOf 2 1 0 0 =
      { precision := 2 / 3, recall' := 1, f1_score := 4 / 5,
        accuracy := 2 / 3, tp := 2, fp := 1, fn := 0, tn := 0 } := by
    unfold precisionRecallOf
    dsimp only
    rw [PrecisionRecall.mk.injEq]
    norm_num
  exact ⟨h.1, h.2.1, h.2.2.1, h.2.2.2.1, h.2.2.2.2.1, h.2.2.2.2.2.1,
    h.2.2.2.2.2.2.1, h.2.2.2.2.2.2.2, by rw [hcpr, hval],
    by rw [hcpr, hval], by rw [hcpr, hval], by rw [hcpr, hval],
    by rw [hcpr, hval], by rw [hcpr, hval]⟩

/-- Witness for C6 at the worked example's inputs. -/
theorem calculate_precision_recall_spec_witness :
    (calculate_precision_recall [exampleScan] exampleGroundTruth).precision =
      ((calculate_precision_recall [exampleScan] exampleGroundTruth).tp : ℚ) /
        (((calculate_precision_recall [exampleScan] exampleGroundTruth).tp :
            ℚ) +
          ((calculate_precision_recall [exampleScan] exampleGroundTruth).fp :
            ℚ)) :=
  (calculate_precision_recall_spec [exampleScan] exampleGroundTruth).1
    (by decide)

lemma dedup_toFinset {α : Type} [DecidableEq α] (l : List α) :
    l.dedup.toFinset = l.toFinset := by
  ext a
  simp [List.mem_toFinset, List.mem_dedup]

lemma diversity_eq_claim_formula (l : List String) :
    calculate_service_diversity l = diversityClaimFormula l := by
  unfold calculate_service_diversity diversityClaimFormula
  rcases eq_or_ne l [] with h | h
  · subst h
    simp
  · rw [if_neg h]
    dsimp only
    congr 1

lemma dedup_pair : (["a", "b"] : List String).dedup = ["a", "b"] := by decide

lemma diversity_pair_neg : calculate_service_diversity ["a", "b"] < 0 := by
  unfold calculate_service_diversity
  rw [if_neg (by simp)]
  dsimp only
  rw [dedup_pair]
  have hca : (["a", "b"] : List String).count "a" = 1 := by decide
  have hcb : (["a", "b"] : List String).count "b" = 1 := by decide
  simp only [List.map_cons, List.map_nil, List.sum_cons, List.sum_nil,
    hca, hcb, List.length_cons, List.length_nil]
  have hs : 0 < Real.sqrt ((1 : ℝ) / (0 + 1 + 1)) := by
    rw [Real.sqrt_pos]
    norm_num
  rw [neg_lt_zero]
  have h1 : (0 : ℝ) < (1 : ℝ) / (0 + 1 + 1) * Real.sqrt (1 / (0 + 1 + 1)) := by
    apply mul_pos _ hs
    norm_num
  push_cast
  nlinarith [h1]

lemma shannon_pair_pos : 0 < shannonDiversity ["a", "b"] := by
  unfold shannonDiversity
  have hca : (["a", "b"] : List String).count "a" = 1 := by decide
  have hcb : (["a", "b"] : List String).count "b" = 1 := by decide
  have hfin : (["a", "b"] : List String).toFinset = {"a", "b"} := by decide
  rw [hfin]
  rw [Finset.sum_insert (by decide), Finset.sum_singleton, hca, hcb]
  simp only [List.length_cons, List.length_nil]
  push_cast
  have hlog : Real.log ((1 : ℝ) / 2) = -Real.log 2 := by
    rw [one_div, Real.log_inv]
  have h2 : (0 : ℝ) < Real.log 2 := Real.log_pos (by norm_num)
  rw [hlog]
  nlinarith [h2]

/-- C7: `calculate_service_diversity` returns `0` when no services have been
recorded, and otherwise returns exactly `-Σ p·sqrt(p)` over the relative
frequencies of each distinct recorded service name — the source's
non-standard formula, which differs from Shannon entropy `-Σ p·log(p)`
(witnessed on two distinct services). -/
theorem service_diversity_formula :
    calculate_service_diversity [] = 0
    ∧ (∀ l : List String,
        calculate_service_diversity l = diversityClaimFormula l)
    ∧ calculate_service_diversity ["a", "b"] ≠ shannonDiversity ["a", "b"] :=
  ⟨by simp [calculate_service_diversity], diversity_eq_claim_formula,
   (diversity_pair_neg.trans shannon_pair_pos).ne⟩

/-- Splitting a list at the first occurrence of a contained character:
`takeWhile (· ≠ c)` is the text before the first `c`. -/
lemma takeWhile_ne_split (c : Char) (l : List Char)
    (h : l.contains c = true) :
    ∃ rest, l = l.takeWhile (fun x => x ≠ c) ++ c :: rest
      ∧ (l.takeWhile (fun x => x ≠ c)).contains c = false := by
  induction l with
  | nil => simp at h
  | cons a t ih =>
    by_cases hac : a = c
    · subst hac
      refine ⟨t, ?_, ?_⟩
      · simp [List.takeWhile_cons]
      · simp [List.takeWhile_cons]
    · have h' : t.contains c = true := by
        simp only [List.contains_cons, Bool.or_eq_true, beq_iff_eq] at h
        rcases h with hca | hh
        · exact absurd hca.symm hac
        · exact hh
      obtain ⟨rest, hrest, hnc⟩ := ih h'
      refine ⟨rest, ?_, ?_⟩
      · rw [List.takeWhile_cons, if_pos (by simp [hac])]
        simp only [List.cons_append]
        exact congrArg (List.cons a) hrest
      · rw [List.takeWhile_cons, if_pos (by simp [hac])]
        rw [List.contains_cons, hnc, Bool.or_false]
        exact beq_false_of_ne (fun hh => hac hh.symm)

/-- A banner written by `service_detection` is truncated to at most 200
characters; otherwise the banner field is left as it was. -/
lemma service_detection_banner_bound (r : PortScanResult) (o : SDOutcome) :
    (service_detection r o).banner = r.banner
      ∨ (service_detection r o).banner.length ≤ 200 := by
  unfold service_detection
  split
  · left
    rfl
  · cases o with
    | connectFail => left; rfl
    | connected raw =>
      dsimp only
      split
      · right
        rw [List.length_take]
        exact Nat.min_le_left _ _
      · left
        rfl

/-- C8 counterexample: the banner `"SSH\nx"` contains the marker `SSH` and
its first line terminator is the newline at index 3, so the claim requires
`_extract_version` to return `"SSH"`; the code only splits SSH banners at a
carriage return, finds none, and returns the whole banner including the
newline. -/
theorem extract_version_newline_counterexample :
    extract_version "SSH\nx".toList = "SSH\nx".toList
    ∧ ("SSH\nx".toList.contains '\n') = true
    ∧ extract_version "SSH\nx".toList ≠ "SSH".toList := by
  refine ⟨by decide, by decide, by decide⟩

/-- C8 (amended): a banner stored by `service_detection` is truncated to at
most 200 characters; `_extract_version` of an empty banner is empty; a
banner containing `SSH` (checked first) is cut at its first carriage return
when it contains one and returned whole otherwise (a newline alone does not
cut it); a banner containing `HTTP` but not `SSH` is cut at its first
newline when it contains one (retaining any carriage return) and returned
whole otherwise; a banner containing `FTP` but neither `SSH` nor `HTTP` is
cut at its first carriage return likewise; any other non-empty banner is
truncated to its first 50 characters. -/
theorem extract_version_rules (b : List Char) (r : PortScanResult)
    (o : SDOutcome) :
    ((service_detection r o).banner = r.banner
      ∨ (service_detection r o).banner.length ≤ 200)
    ∧ (b = [] → extract_version b = [])
    ∧ (containsSub "SSH".toList b = true → b.contains '\r' = true →
      ∃ rest, b = extract_version b ++ '\r' :: rest
        ∧ (extract_version b).contains '\r' = false)
    ∧ (containsSub "SSH".toList b = true → b.contains '\r' = false →
      extract_version b = b)
    ∧ (containsSub "SSH".toList b = false →
        containsSub "HTTP".toList b = true → b.contains '\n' = true →
      ∃ rest, b = extract_version b ++ '\n' :: rest
        ∧ (extract_version b).contains '\n' = false)
    ∧ (containsSub "SSH".toList b = false →
        containsSub "HTTP".toList b = true → b.contains '\n' = false →
      extract_version b = b)
    ∧ (containsSub "SSH".toList b = false →
        containsSub "HTTP".toList b = false →
        containsSub "FTP".toList b = true → b.contains '\r' = true →
      ∃ rest, b = extract_version b ++ '\r' :: rest
        ∧ (extract_version b).contains '\r' = false)
    ∧ (containsSub "SSH".toList b = false →
        containsSub "HTTP".toList b = false →
        containsSub "FTP".toList b = true → b.contains '\r' = false →
      extract_version b = b)
    ∧ (b ≠ [] → containsSub "SSH".toList b = false →
        containsSub "HTTP".toList b = false →
        containsSub "FTP".toList b = false →
      extract_version b = b.take 50) := by
  have hne : ∀ {needle : List Char}, needle ≠ [] →
      containsSub needle b = true → b ≠ [] := by
    intro needle hn hc hb
    subst hb
    simp [containsSub, List.isEmpty_iff] at hc
    exact hn hc
  refine ⟨service_detection_banner_bound r o, ?_, ?_, ?_, ?_, ?_, ?_, ?_, ?_⟩
  · intro h
    subst h
    rfl
  · intro hssh hcr
    have hb := hne (by decide) hssh
    unfold extract_version
    rw [if_neg hb, if_pos hssh, if_pos hcr]
    exact takeWhile_ne_split _ b hcr
  · intro hssh hcr
    have hb := hne (by decide) hssh
    unfold extract_version
    rw [if_neg hb, if_pos hssh, if_neg (by rw [hcr]; decide)]
  · intro hssh hhttp hnl
    have hb := hne (by decide) hhttp
    unfold extract_version
    rw [if_neg hb, if_neg (by rw [hssh]; decide), if_pos hhttp, if_pos hnl]
    exact takeWhile_ne_split _ b hnl
  · intro hssh hhttp hnl
    have hb := hne (by decide) hhttp
    unfold extract_version
    rw [if_neg hb, if_neg (by rw [hssh]; decide), if_pos hhttp,
      if_neg (by rw [hnl]; decide)]
  · intro hssh hhttp hftp hcr
    have hb := hne (by decide) hftp
    unfold extract_version
    rw [if_neg hb, if_neg (by rw [hssh]; decide), if_neg (by rw [hhttp]; decide),
      if_pos hftp, if_pos hcr]
    exact takeWhile_ne_split _ b hcr
  · intro hssh hhttp hftp hcr
    have hb := hne (by decide) hftp
    unfold extract_version
    rw [if_neg hb, if_neg (by rw [hssh]; decide), if_neg (by rw [hhttp]; decide),
      if_pos hftp, if_neg (by rw [hcr]; decide)]
  · intro hb hssh hhttp hftp
    unfold extract_version
    rw [if_neg hb, if_neg (by rw [hssh]; decide), if_neg (by rw [hhttp]; decide),
      if_neg (by rw [hftp]; decide)]

/-- Witness for C8's amended theorem on a concrete SSH banner with both a
carriage return and a newline. -/
theorem extract_version_rules_witness :
    ∃ rest, "SSH-2.0\r\nx".toList =
        extract_version "SSH-2.0\r\nx".toList ++ '\r' :: rest
      ∧ (extract_version "SSH-2.0\r\nx".toList).contains '\r' = false :=
  (extract_version_rules "SSH-2.0\r\nx".toList
      { host := "h", port := 22, status := "open", response_time := 1 }
      .connectFail).2.2.1 (by decide) (by decide)

end Recon
